import Mathlib

/-!
# MicMon — verification of the device-resolution and listen-property protocol

Shallow embedding of `src/MicMon.py` (the core: endpoint enumeration, name
resolution, property-store access, listen-state codec, apply orchestrator).

External OS behaviour (COM enumeration, the device property store, injected
I/O faults) is modelled as explicit state passed into the embedded
functions; the functions themselves are direct translations of the Python
source.  An unreadable or absent checkbox property is modelled as a failing
`GetValue` (the `except` path of `get_listen_enabled`), matching the code's
treatment of any read failure.
-/

deriving instance DecidableEq for Except

namespace MicMon

/-- Python exception classes raised by the source, carrying the message the
source builds (`ValueError`, `RuntimeError`) or the opaque cause of a COM
property-store failure (`comError`, standing for the exception propagated
out of a failed `SetValue`/`GetValue`/`Commit`). -/
inductive PyErr where
  | valueError (msg : String)
  | runtimeError (msg : String)
  | comError (cause : String)
deriving DecidableEq, Repr

/-- A raw endpoint as the OS enumeration hands it to `get_active_devices`
(`collection.Item(i)` already non-`None`).  `isGhost` models the
`": None" in str(device)` test of line 120: a ghost entry with no usable
friendly name. -/
structure RawDevice where
  id : String
  friendly_name : String
  isGhost : Bool
deriving DecidableEq, Repr

/-- The OS audio-enumeration subsystem state: whether `CoCreateInstance`
and `EnumAudioEndpoints` succeed, and the raw endpoint collections per data
flow (`eCapture` for inputs, `eRender` for outputs); a `none` item models
`collection.Item(i)` returning `None` (line 116). -/
structure OsAudio where
  createOk : Bool
  enumOk : Bool
  capture : List (Option RawDevice)
  render : List (Option RawDevice)
deriving DecidableEq, Repr

/-- `DeviceInfo` dataclass of `MicMon.py` (lines 56-60). -/
structure DeviceInfo where
  id : String
  friendly_name : String
  direction : String
deriving DecidableEq, Repr

/-- A typed property value (`PROPVARIANT`): `VT_BOOL`, `VT_LPWSTR`, or
`VT_EMPTY`. -/
inductive PropVal where
  | vBool (b : Bool)
  | vStr (s : String)
  | vEmpty
deriving DecidableEq, Repr

/-- The two listen-tab properties of one input device's property store:
`checkbox` is the raw `boolVal` that `GetValue` on the checkbox key yields
(`none` models `GetValue` failing / the property being absent, the `except`
path of `get_listen_enabled`); `route` is the value stored under the
playback-device key. -/
structure ListenStore where
  checkbox : Option Int
  route : PropVal
deriving DecidableEq, Repr

/-- Injected faults of the external property-store calls: a `some cause`
makes the corresponding `SetValue` raise with that cause; `openFails`
models `GetDevice` returning `None`; `commitFails` makes `Commit` raise. -/
structure Faults where
  openFails : Bool
  checkboxWriteFault : Option String
  routeWriteFault : Option String
  commitFails : Bool
deriving DecidableEq, Repr

/-- The whole external world one apply operation runs against. -/
structure World where
  os : OsAudio
  store : ListenStore
  faults : Faults
deriving DecidableEq, Repr

/-- A property write that actually reached `SetValue` successfully. -/
inductive WriteEvent where
  | wCheckbox (v : Int)
  | wRoute (v : PropVal)
deriving DecidableEq, Repr

/-- Python `repr` of a device-name string as used by the `{name!r}`
interpolations (names without quotes or escapes). -/
def pyRepr (s : String) : String := "\x27" ++ s ++ "\x27"

/-- `get_active_devices(direction)` (lines 94-125): validates the direction
string, models `CoCreateInstance` / `EnumAudioEndpoints` failure, then
builds `DeviceInfo` entries, skipping `None` items and ghost devices. -/
def get_active_devices (os : OsAudio) (direction : String) :
    Except PyErr (List DeviceInfo) :=
  if ¬(direction = "input" ∨ direction = "output") then
    .error (.valueError "direction must be \x27input\x27 or \x27output\x27")
  else if ¬os.createOk then
    .error (.runtimeError "Couldn\x27t create IMMDeviceEnumerator")
  else if ¬os.enumOk then
    .error (.runtimeError "Couldn\x27t enumerate audio endpoints")
  else
    let raw := if direction = "output" then os.render else os.capture
    .ok (raw.filterMap (fun item =>
      match item with
      | none => none
      | some d =>
        if d.isGhost then none
        else some { id := d.id, friendly_name := d.friendly_name,
                    direction := direction }))

/-- `find_device_guid_by_name(name)` (lines 141-145): first exact
friendly-name match over inputs then outputs; raises
`ValueError(f"Audio device not found: {name!r}")` when no match. -/
def find_device_guid_by_name (os : OsAudio) (name : String) :
    Except PyErr String :=
  match get_active_devices os "input" with
  | .error e => .error e
  | .ok ins =>
    match get_active_devices os "output" with
    | .error e => .error e
    | .ok outs =>
      match (ins ++ outs).find? (fun d => d.friendly_name == name) with
      | some d => .ok d.id
      | none => .error (.valueError ("Audio device not found: " ++ pyRepr name))

/-- `open_property_store_for_device(device_name)` (lines 152-158): resolve
the name, then `GetDevice` + `OpenPropertyStore`; `GetDevice` returning
`None` raises `RuntimeError`. -/
def open_property_store_for_device (w : World) (device_name : String) :
    Except PyErr ListenStore :=
  match find_device_guid_by_name w.os device_name with
  | .error e => .error e
  | .ok device_guid =>
    if w.faults.openFails then
      .error (.runtimeError ("Failed to open device for GUID " ++ device_guid))
    else
      .ok w.store

/-- `get_listen_enabled(property_store)` (lines 175-180): `bool(boolVal)`
on a successful read, `None` when the read raises (property unreadable or
absent). -/
def get_listen_enabled (store : ListenStore) : Option Bool :=
  match store.checkbox with
  | some v => some (decide (v ≠ 0))
  | none => none

/-- `set_listen_enabled(property_store, enabled)` (lines 183-186): builds a
`VT_BOOL` propvariant with `boolVal = bool(enabled)` (1 or 0) and calls
`SetValue`; a fault makes `SetValue` raise, leaving the store unchanged. -/
def set_listen_enabled (faults : Faults) (store : ListenStore)
    (enabled : Bool) : Except PyErr (ListenStore × WriteEvent) :=
  match faults.checkboxWriteFault with
  | some cause => .error (.comError cause)
  | none =>
    let v : Int := if enabled then 1 else 0
    .ok ({ store with checkbox := some v }, .wCheckbox v)

/-- `set_listen_playback_device(property_store, playback_device_name)`
(lines 189-197): with a name, resolve it to a GUID (inside this function)
and write a `VT_LPWSTR`; with `None`, write `VT_EMPTY`. -/
def set_listen_playback_device (os : OsAudio) (faults : Faults)
    (store : ListenStore) (playback_device_name : Option String) :
    Except PyErr (ListenStore × WriteEvent) :=
  match playback_device_name with
  | some nm =>
    match find_device_guid_by_name os nm with
    | .error e => .error e
    | .ok guid =>
      match faults.routeWriteFault with
      | some cause => .error (.comError cause)
      | none => .ok ({ store with route := .vStr guid }, .wRoute (.vStr guid))
  | none =>
    match faults.routeWriteFault with
    | some cause => .error (.comError cause)
    | none => .ok ({ store with route := .vEmpty }, .wRoute .vEmpty)

/-- The state `apply_listen_settings` reports on success (the printed
"Listen to this device" / "Playback through this device" pair). -/
structure FinalState where
  enabled : Bool
  route_target : Option String
deriving DecidableEq, Repr

/-- Observable outcome of one `apply_listen_settings` call: the Python
return/raise, the property store afterwards, the `SetValue` calls that
succeeded (in order), whether `Commit` succeeded, and the lines printed. -/
structure ApplyResult where
  result : Except PyErr FinalState
  store : ListenStore
  writes : List WriteEvent
  committed : Bool
  output : List String
deriving Repr

/-- The verbose trailer of `apply_listen_settings` (lines 222-226); Python
`playback_device_name or "Default playback device"` treats an empty string
as falsy. -/
def apply_output (enabled_to_set : Bool)
    (playback_device_name : Option String) : List String :=
  let state := if enabled_to_set then "ON" else "OFF"
  let target :=
    match playback_device_name with
    | some nm => if nm = "" then "Default playback device" else nm
    | none => "Default playback device"
  ["[micmon] Listen to this device: " ++ state,
   "[micmon] Playback through this device: " ++ target]

/-- `apply_listen_settings(microphone_name, enabled, playback_device_name,
verbose)` (lines 200-226): open store, read current flag, compute the
target (`enabled = None` means toggle, unknown prior toggles to `True`),
write checkbox then route, commit with the exception swallowed, print. -/
def apply_listen_settings (w : World) (microphone_name : String)
    (enabled : Option Bool) (playback_device_name : Option String)
    (verbose : Bool := true) : ApplyResult :=
  match open_property_store_for_device w microphone_name with
  | .error e => ⟨.error e, w.store, [], false, []⟩
  | .ok store0 =>
    let current := get_listen_enabled store0
    let enabled_to_set :=
      match enabled with
      | none => match current with
                | some c => !c
                | none => true
      | some b => b
    match set_listen_enabled w.faults store0 enabled_to_set with
    | .error e => ⟨.error e, store0, [], false, []⟩
    | .ok (store1, ev1) =>
      match set_listen_playback_device w.os w.faults store1
          playback_device_name with
      | .error e => ⟨.error e, store1, [ev1], false, []⟩
      | .ok (store2, ev2) =>
        ⟨.ok ⟨enabled_to_set, playback_device_name⟩, store2, [ev1, ev2],
         !w.faults.commitFails,
         if verbose then apply_output enabled_to_set playback_device_name
         else []⟩

/-- Exit-code mapping of `main` for the apply path (lines 410-426):
success 0, `ValueError` 1, any other exception 2. -/
def main_exit_code (r : Except PyErr FinalState) : Nat :=
  match r with
  | .ok _ => 0
  | .error (.valueError _) => 1
  | .error (.runtimeError _) => 2
  | .error (.comError _) => 2

/-- `charsPre n h` : the char list `n` is an initial segment of `h`. -/
def charsPre (needle hay : List Char) : Bool :=
  match needle, hay with
  | [], _ => true
  | _ :: _, [] => false
  | a :: ns, b :: hs => a == b && charsPre ns hs

/-- `charsContain h n` : `n` occurs contiguously somewhere in `h`. -/
def charsContain (hay needle : List Char) : Bool :=
  charsPre needle hay ||
    match hay with
    | [] => false
    | _ :: t => charsContain t needle

/-- String containment, used to state what an error message names. -/
def strContainsB (hay needle : String) : Bool :=
  charsContain hay.toList needle.toList

/-- Demo OS: one active microphone and one active speaker. -/
def osDemo : OsAudio :=
  { createOk := true, enumOk := true,
    capture := [some { id := "{mic0}", friendly_name := "Mic", isGhost := false }],
    render := [some { id := "{spk0}", friendly_name := "Speakers", isGhost := false }] }

/-- Demo OS with two distinct inputs sharing the display name "Mic". -/
def osDup : OsAudio :=
  { createOk := true, enumOk := true,
    capture := [some { id := "{micA}", friendly_name := "Mic", isGhost := false },
                some { id := "{micB}", friendly_name := "Mic", isGhost := false }],
    render := [] }

/-- A store with the listen checkbox present and off, route cleared. -/
def storeDemo : ListenStore := { checkbox := some 0, route := PropVal.vEmpty }

/-- No injected faults. -/
def noFaults : Faults :=
  { openFails := false, checkboxWriteFault := none,
    routeWriteFault := none, commitFails := false }

/-- Fault-free demo world. -/
def wDemo : World := { os := osDemo, store := storeDemo, faults := noFaults }

/-- World with a microphone whose listen setting was never configured. -/
def wUnknownPrior : World :=
  { os := osDemo, store := { checkbox := none, route := PropVal.vEmpty },
    faults := noFaults }

/-- Demo world whose route-target write raises (checkbox write succeeds). -/
def wRouteFault : World :=
  { os := osDemo, store := storeDemo,
    faults := { openFails := false, checkboxWriteFault := none,
                routeWriteFault := some "io fault", commitFails := false } }

/-- Demo world whose checkbox write raises. -/
def wCheckboxFault : World :=
  { os := osDemo, store := storeDemo,
    faults := { openFails := false, checkboxWriteFault := some "io fault",
                routeWriteFault := none, commitFails := false } }

/-- Demo world whose `Commit` raises. -/
def wCommitFault : World :=
  { os := osDemo, store := storeDemo,
    faults := { openFails := false, checkboxWriteFault := none,
                routeWriteFault := none, commitFails := true } }

/-- If `p` holds at index `i` of `l` and at no earlier index, `find?`
returns the element at `i`. -/
theorem find_first_aux {α : Type} (p : α → Bool) (l : List α) (i : Nat)
    (hi : i < l.length) (hp : p (l.get ⟨i, hi⟩) = true)
    (hfirst : ∀ j (hj : j < i), p (l.get ⟨j, by omega⟩) = false) :
    l.find? p = some (l.get ⟨i, hi⟩) := by
  induction l generalizing i with
  | nil => simp at hi
  | cons a t ih =>
    cases i with
    | zero =>
      simp at hp
      simp [List.find?, hp]
    | succ n =>
      have ha : p a = false := hfirst 0 (Nat.succ_pos n)
      have hn : n < t.length := by simpa using hi
      have hp2 : p (t.get ⟨n, hn⟩) = true := by simpa using hp
      have hfirst2 : ∀ j (hj : j < n), p (t.get ⟨j, by omega⟩) = false := by
        intro j hj
        have := hfirst (j + 1) (by omega)
        simpa using this
      have := ih n hn hp2 hfirst2
      simp [List.find?, ha, this]

/-- With both enumerations succeeding, the resolver is the first-match scan
over the concatenated input-then-output list. -/
theorem find_device_guid_spec (os : OsAudio) (name : String)
    (ins outs : List DeviceInfo)
    (hin : get_active_devices os "input" = .ok ins)
    (hout : get_active_devices os "output" = .ok outs) :
    find_device_guid_by_name os name =
      match (ins ++ outs).find? (fun d => d.friendly_name == name) with
      | some d => .ok d.id
      | none => .error (.valueError ("Audio device not found: " ++ pyRepr name)) := by
  unfold find_device_guid_by_name
  rw [hin, hout]

/-- Claim C9: decoding the enabled flag yields `none` exactly when the
underlying read failed or the property was absent (the `except` path), and
yields the boolean `bool(boolVal)` whenever the read succeeds; a failed or
absent read never raises out of `get_listen_enabled`. -/
theorem decode_enabled_null_iff_unreadable (store : ListenStore) :
    (get_listen_enabled store = none ↔ store.checkbox = none) ∧
    (∀ v : Int, store.checkbox = some v →
      get_listen_enabled store = some (decide (v ≠ 0))) := by
  constructor
  · cases h : store.checkbox <;> simp [get_listen_enabled, h]
  · intro v hv
    simp [get_listen_enabled, hv]

/-- Witness for C9 at a concrete readable store. -/
theorem decode_enabled_null_iff_unreadable_witness :
    get_listen_enabled { checkbox := some 1, route := PropVal.vEmpty } = some true := by
  have h := (decode_enabled_null_iff_unreadable
    { checkbox := some 1, route := PropVal.vEmpty }).2 1 rfl
  simpa using h

/-- Claim C10: for any direction string other than "input" and "output",
`get_active_devices` raises `ValueError` without consulting the OS
enumeration subsystem (the outcome is the same for every OS state); for
the two valid directions, every returned descriptor carries a `direction`
field equal to the argument. -/
theorem enumerator_direction_guard (direction : String) :
    ((¬(direction = "input" ∨ direction = "output")) →
      ∀ os os2 : OsAudio,
        get_active_devices os direction = get_active_devices os2 direction ∧
        get_active_devices os direction =
          .error (.valueError "direction must be \x27input\x27 or \x27output\x27")) ∧
    (∀ (os : OsAudio) (devs : List DeviceInfo),
      get_active_devices os direction = .ok devs →
      ∀ d ∈ devs, d.direction = direction) := by
  constructor
  · intro hdir os os2
    constructor <;> simp [get_active_devices, hdir]
  · intro os devs hok d hd
    unfold get_active_devices at hok
    split at hok
    · cases hok
    · split at hok
      · cases hok
      · split at hok
        · cases hok
        · cases hok
          rcases List.mem_filterMap.1 hd with ⟨item, _, hf⟩
          cases item with
          | none => cases hf
          | some rd =>
            by_cases hg : rd.isGhost
            · simp [hg] at hf
            · simp [hg] at hf
              rw [← hf]

/-- Witness for C10 at the invalid direction "sideways". -/
theorem enumerator_direction_guard_witness :
    get_active_devices osDemo "sideways" =
      .error (.valueError "direction must be \x27input\x27 or \x27output\x27") :=
  ((enumerator_direction_guard "sideways").1 (by decide) osDemo osDemo).2

/-- Claim C6: the resolver scans Input endpoints then Output endpoints and
returns the identifier of the first descriptor whose display name equals
the argument exactly; with duplicate display names the descriptor earliest
in the concatenated enumeration order wins (no error), and with no match
anywhere it fails with the device-not-found `ValueError`. -/
theorem resolver_first_match (os : OsAudio) (name : String)
    (ins outs : List DeviceInfo)
    (hin : get_active_devices os "input" = .ok ins)
    (hout : get_active_devices os "output" = .ok outs) :
    (∀ i (hi : i < (ins ++ outs).length),
      ((ins ++ outs).get ⟨i, hi⟩).friendly_name = name →
      (∀ j (hj : j < i), ((ins ++ outs).get ⟨j, by omega⟩).friendly_name ≠ name) →
      find_device_guid_by_name os name = .ok ((ins ++ outs).get ⟨i, hi⟩).id) ∧
    ((∀ d ∈ ins ++ outs, d.friendly_name ≠ name) →
      find_device_guid_by_name os name =
        .error (.valueError ("Audio device not found: " ++ pyRepr name))) := by
  rw [find_device_guid_spec os name ins outs hin hout]
  constructor
  · intro i hi hp hfirst
    have hfind : (ins ++ outs).find? (fun d => d.friendly_name == name) =
        some ((ins ++ outs).get ⟨i, hi⟩) := by
      apply find_first_aux
      · simpa using hp
      · intro j hj
        simpa using hfirst j hj
    rw [hfind]
  · intro hnone
    have hfind : (ins ++ outs).find? (fun d => d.friendly_name == name) = none := by
      rw [List.find?_eq_none]
      intro d hd
      simpa using hnone d hd
    rw [hfind]

/-- Witness for C6: with two inputs both named "Mic", the first one's
identifier is returned. -/
theorem resolver_first_match_witness :
    find_device_guid_by_name osDup "Mic" = .ok "{micA}" := by
  have h := (resolver_first_match osDup "Mic"
      [{ id := "{micA}", friendly_name := "Mic", direction := "input" },
       { id := "{micB}", friendly_name := "Mic", direction := "input" }] []
      rfl rfl).1 0 (by decide) rfl
      (fun j hj => absurd hj (Nat.not_lt_zero j))
  simpa using h

/-- Claim C8: over one and the same enumeration, resolving a name succeeds
if and only if the name appears among the display names of the input list
or of the output list that device listing returns. -/
theorem resolve_iff_listed (os : OsAudio) (name : String)
    (ins outs : List DeviceInfo)
    (hin : get_active_devices os "input" = .ok ins)
    (hout : get_active_devices os "output" = .ok outs) :
    (∃ g, find_device_guid_by_name os name = .ok g) ↔
      (name ∈ ins.map DeviceInfo.friendly_name ∨
       name ∈ outs.map DeviceInfo.friendly_name) := by
  rw [find_device_guid_spec os name ins outs hin hout]
  cases hf : (ins ++ outs).find? (fun d => d.friendly_name == name) with
  | some d =>
    have hd : d ∈ ins ++ outs := List.mem_of_find?_eq_some hf
    have hpd : d.friendly_name = name := by
      have := List.find?_some hf
      simpa using this
    simp only [List.mem_append] at hd
    constructor
    · intro _
      rcases hd with hd | hd
      · exact Or.inl (List.mem_map.2 ⟨d, hd, hpd⟩)
      · exact Or.inr (List.mem_map.2 ⟨d, hd, hpd⟩)
    · intro _
      exact ⟨d.id, rfl⟩
  | none =>
    have hnone := List.find?_eq_none.1 hf
    constructor
    · intro ⟨g, hg⟩
      cases hg
    · intro hmem
      exfalso
      rcases hmem with hmem | hmem
      · rcases List.mem_map.1 hmem with ⟨d, hd, hdn⟩
        exact absurd (by simpa using hdn)
          (by simpa using hnone d (List.mem_append.2 (Or.inl hd)))
      · rcases List.mem_map.1 hmem with ⟨d, hd, hdn⟩
        exact absurd (by simpa using hdn)
          (by simpa using hnone d (List.mem_append.2 (Or.inr hd)))

/-- Witness for C8 at the demo enumeration and the listed name "Speakers". -/
theorem resolve_iff_listed_witness :
    ∃ g, find_device_guid_by_name osDemo "Speakers" = .ok g := by
  apply (resolve_iff_listed osDemo "Speakers"
      [{ id := "{mic0}", friendly_name := "Mic", direction := "input" }]
      [{ id := "{spk0}", friendly_name := "Speakers", direction := "output" }]
      rfl rfl).2
  right
  simp

/-- Claim C3: on a Toggle request (the `enabled` argument absent), when the
prior enabled value cannot be decoded the computed target is `true`, and
when a prior value `c` is decoded the target is `!c`. -/
theorem toggle_target_computation (w : World) (mic g : String)
    (hres : find_device_guid_by_name w.os mic = .ok g)
    (hopen : w.faults.openFails = false)
    (hcb : w.faults.checkboxWriteFault = none)
    (hrt : w.faults.routeWriteFault = none) :
    (get_listen_enabled w.store = none →
      (apply_listen_settings w mic none none).result =
        .ok { enabled := true, route_target := none }) ∧
    (∀ c, get_listen_enabled w.store = some c →
      (apply_listen_settings w mic none none).result =
        .ok { enabled := !c, route_target := none }) := by
  constructor
  · intro hcur
    simp [apply_listen_settings, open_property_store_for_device, hres, hopen,
          hcur, set_listen_enabled, hcb, set_listen_playback_device, hrt]
  · intro c hcur
    simp [apply_listen_settings, open_property_store_for_device, hres, hopen,
          hcur, set_listen_enabled, hcb, set_listen_playback_device, hrt]

/-- Witness for C3: first-ever toggle on a never-configured device turns
the listen flag on. -/
theorem toggle_target_computation_witness :
    (apply_listen_settings wUnknownPrior "Mic" none none).result =
      .ok { enabled := true, route_target := none } :=
  (toggle_target_computation wUnknownPrior "Mic" "{mic0}" rfl rfl rfl rfl).1 rfl

/-- Claim C4: starting from a device whose enabled flag decodes to `b`,
two successive Toggle apply operations (the second reading the store the
first one wrote) leave the enabled flag decoding to `b` again, and the
second operation reports `b` as the final enabled value. -/
theorem toggle_twice_restores (w : World) (mic g : String) (b : Bool)
    (hres : find_device_guid_by_name w.os mic = .ok g)
    (hopen : w.faults.openFails = false)
    (hcb : w.faults.checkboxWriteFault = none)
    (hrt : w.faults.routeWriteFault = none)
    (hcur : get_listen_enabled w.store = some b) :
    get_listen_enabled
      (apply_listen_settings
        { w with store := (apply_listen_settings w mic none none).store }
        mic none none).store = some b ∧
    (apply_listen_settings
        { w with store := (apply_listen_settings w mic none none).store }
        mic none none).result =
      .ok { enabled := b, route_target := none } := by
  cases b with
  | false =>
    rcases hv : w.store.checkbox with _ | v
    · simp [get_listen_enabled, hv] at hcur
    · have hv0 : v = 0 := by simpa [get_listen_enabled, hv] using hcur
      subst hv0
      simp [apply_listen_settings, open_property_store_for_device, hres, hopen,
            set_listen_enabled, hcb, set_listen_playback_device, hrt,
            get_listen_enabled, hv]
  | true =>
    rcases hv : w.store.checkbox with _ | v
    · simp [get_listen_enabled, hv] at hcur
    · have hvne : ¬(v = 0) := by simpa [get_listen_enabled, hv] using hcur
      simp [apply_listen_settings, open_property_store_for_device, hres, hopen,
            set_listen_enabled, hcb, set_listen_playback_device, hrt,
            get_listen_enabled, hv, hvne]

/-- Witness for C4 at the demo world (flag initially off). -/
theorem toggle_twice_restores_witness :
    get_listen_enabled
      (apply_listen_settings
        { wDemo with store := (apply_listen_settings wDemo "Mic" none none).store }
        "Mic" none none).store = some false :=
  (toggle_twice_restores wDemo "Mic" "{mic0}" false rfl rfl rfl rfl rfl).1

/-- Counterexample to claim C1: with a resolvable input "Mic" and the
unresolvable output "NonexistentSpeaker", the apply fails with the
device-not-found error, but the enabled flag HAS been written before the
failure (one successful checkbox `SetValue`, store changed from `some 0`
to `some 1`), contradicting "neither the enabled flag nor the route target
is written": output resolution happens inside the route-write step, after
the enabled-flag write. -/
theorem apply_bad_output_counterexample :
    (apply_listen_settings wDemo "Mic" (some true) (some "NonexistentSpeaker")).result =
      .error (.valueError "Audio device not found: \x27NonexistentSpeaker\x27") ∧
    (apply_listen_settings wDemo "Mic" (some true) (some "NonexistentSpeaker")).writes =
      [.wCheckbox 1] ∧
    (apply_listen_settings wDemo "Mic" (some true) (some "NonexistentSpeaker")).store.checkbox =
      some 1 ∧
    wDemo.store.checkbox = some 0 := by decide

/-- Claim C1 as amended: with a resolvable input name and an output name
matching no active device, the apply fails with the device-not-found
error for the output name and the route target is never written (it keeps
its old value), but the enabled flag has already been written by then:
exactly one checkbox write is performed before the failure. -/
theorem apply_bad_output_behavior (w : World) (mic g : String)
    (enabled : Option Bool) (pb : String)
    (ins outs : List DeviceInfo)
    (hin : get_active_devices w.os "input" = .ok ins)
    (hout : get_active_devices w.os "output" = .ok outs)
    (hres : find_device_guid_by_name w.os mic = .ok g)
    (hopen : w.faults.openFails = false)
    (hcb : w.faults.checkboxWriteFault = none)
    (hpb : ∀ d ∈ ins ++ outs, d.friendly_name ≠ pb) :
    (apply_listen_settings w mic enabled (some pb)).result =
      .error (.valueError ("Audio device not found: " ++ pyRepr pb)) ∧
    (apply_listen_settings w mic enabled (some pb)).store.route = w.store.route ∧
    ∃ v, (apply_listen_settings w mic enabled (some pb)).writes = [.wCheckbox v] ∧
      (apply_listen_settings w mic enabled (some pb)).store.checkbox = some v := by
  have hfind : find_device_guid_by_name w.os pb =
      .error (.valueError ("Audio device not found: " ++ pyRepr pb)) := by
    rw [find_device_guid_spec w.os pb ins outs hin hout]
    have hnone : (ins ++ outs).find? (fun d => d.friendly_name == pb) = none := by
      rw [List.find?_eq_none]
      intro d hd
      simpa using hpb d hd
    rw [hnone]
  refine ⟨?_, ?_, ?_⟩ <;>
    simp [apply_listen_settings, open_property_store_for_device, hres, hopen,
          set_listen_enabled, hcb, set_listen_playback_device, hfind]

/-- Witness for the amended C1 at the demo world. -/
theorem apply_bad_output_behavior_witness :
    (apply_listen_settings wDemo "Mic" (some true) (some "NonexistentSpeaker")).result =
      .error (.valueError ("Audio device not found: " ++ pyRepr "NonexistentSpeaker")) :=
  (apply_bad_output_behavior wDemo "Mic" "{mic0}" (some true) "NonexistentSpeaker"
    [{ id := "{mic0}", friendly_name := "Mic", direction := "input" }]
    [{ id := "{spk0}", friendly_name := "Speakers", direction := "output" }]
    rfl rfl rfl rfl rfl (by decide)).1

/-- Counterexample to claim C5: applying to the unresolvable input
"NonexistentMic" does fail during resolution with no property writes, but
the error is `ValueError("Audio device not found: 'NonexistentMic'")`,
which names the display name and contains no direction marker at all
(neither "Input" nor "input" occurs in the message), contradicting
"DeviceNotFound naming the given display name and the Input direction
context". -/
theorem apply_bad_input_counterexample :
    (apply_listen_settings wDemo "NonexistentMic" (some true) none).result =
      .error (.valueError "Audio device not found: \x27NonexistentMic\x27") ∧
    strContainsB "Audio device not found: \x27NonexistentMic\x27" "Input" = false ∧
    strContainsB "Audio device not found: \x27NonexistentMic\x27" "input" = false ∧
    strContainsB "Audio device not found: \x27NonexistentMic\x27" "NonexistentMic" = true ∧
    (apply_listen_settings wDemo "NonexistentMic" (some true) none).writes = [] := by
  decide

/-- Claim C5 as amended: when the input name matches no active input or
output device, the apply fails with the device-not-found `ValueError`
naming the given display name (but not the direction), performs no
property writes, and leaves the store untouched: the failure occurs during
resolution, before the store is opened or written. -/
theorem apply_bad_input_behavior (w : World) (mic : String)
    (enabled : Option Bool) (pb : Option String)
    (ins outs : List DeviceInfo)
    (hin : get_active_devices w.os "input" = .ok ins)
    (hout : get_active_devices w.os "output" = .ok outs)
    (hmic : ∀ d ∈ ins ++ outs, d.friendly_name ≠ mic) :
    (apply_listen_settings w mic enabled pb).result =
      .error (.valueError ("Audio device not found: " ++ pyRepr mic)) ∧
    (apply_listen_settings w mic enabled pb).writes = [] ∧
    (apply_listen_settings w mic enabled pb).store = w.store := by
  have hfind : find_device_guid_by_name w.os mic =
      .error (.valueError ("Audio device not found: " ++ pyRepr mic)) := by
    rw [find_device_guid_spec w.os mic ins outs hin hout]
    have hnone : (ins ++ outs).find? (fun d => d.friendly_name == mic) = none := by
      rw [List.find?_eq_none]
      intro d hd
      simpa using hmic d hd
    rw [hnone]
  refine ⟨?_, ?_, ?_⟩ <;>
    simp [apply_listen_settings, open_property_store_for_device, hfind]

/-- Witness for the amended C5 at the demo world. -/
theorem apply_bad_input_behavior_witness :
    (apply_listen_settings wDemo "NonexistentMic" (some true) none).result =
      .error (.valueError ("Audio device not found: " ++ pyRepr "NonexistentMic")) :=
  (apply_bad_input_behavior wDemo "NonexistentMic" (some true) none
    [{ id := "{mic0}", friendly_name := "Mic", direction := "input" }]
    [{ id := "{spk0}", friendly_name := "Speakers", direction := "output" }]
    rfl rfl (by decide)).1

/-- Counterexample to claim C2: when the enabled-flag write succeeds and
the route-target write then fails (cause "io fault"), the apply fails with
exactly the same error value — and the same exit code 2 — as a run in
which the enabled-flag write itself fails with that cause, so the caller
cannot distinguish the mixed-state (partial-write) failure from any other
I/O failure: no distinct PartialWrite error exists in the code. -/
theorem partial_write_counterexample :
    (apply_listen_settings wRouteFault "Mic" (some true) none).result =
      .error (.comError "io fault") ∧
    (apply_listen_settings wCheckboxFault "Mic" (some true) none).result =
      .error (.comError "io fault") ∧
    (apply_listen_settings wRouteFault "Mic" (some true) none).writes =
      [.wCheckbox 1] ∧
    (apply_listen_settings wCheckboxFault "Mic" (some true) none).writes = [] ∧
    main_exit_code (apply_listen_settings wRouteFault "Mic" (some true) none).result = 2 ∧
    main_exit_code (apply_listen_settings wCheckboxFault "Mic" (some true) none).result = 2 := by
  decide

/-- Claim C2 as amended: when the enabled-flag write succeeds and the
route-target write fails, the operation fails with the propagated I/O
error (not a distinct PartialWrite), and afterwards the enabled flag holds
the newly written value while the route target holds its old value — no
rollback of the first write. -/
theorem partial_write_behavior (w : World) (mic g : String) (b : Bool)
    (cause : String)
    (hres : find_device_guid_by_name w.os mic = .ok g)
    (hopen : w.faults.openFails = false)
    (hcb : w.faults.checkboxWriteFault = none)
    (hrt : w.faults.routeWriteFault = some cause) :
    (apply_listen_settings w mic (some b) none).result =
      .error (.comError cause) ∧
    get_listen_enabled (apply_listen_settings w mic (some b) none).store = some b ∧
    (apply_listen_settings w mic (some b) none).store.route = w.store.route ∧
    (apply_listen_settings w mic (some b) none).writes =
      [.wCheckbox (if b then 1 else 0)] := by
  cases b with
  | false =>
    refine ⟨?_, ?_, ?_, ?_⟩ <;>
      simp [apply_listen_settings, open_property_store_for_device, hres, hopen,
            set_listen_enabled, hcb, set_listen_playback_device, hrt,
            get_listen_enabled]
  | true =>
    refine ⟨?_, ?_, ?_, ?_⟩ <;>
      simp [apply_listen_settings, open_property_store_for_device, hres, hopen,
            set_listen_enabled, hcb, set_listen_playback_device, hrt,
            get_listen_enabled]

/-- Witness for the amended C2 at the demo world with a failing route
write. -/
theorem partial_write_behavior_witness :
    (apply_listen_settings wRouteFault "Mic" (some true) none).result =
      .error (.comError "io fault") ∧
    get_listen_enabled (apply_listen_settings wRouteFault "Mic" (some true) none).store =
      some true :=
  ⟨(partial_write_behavior wRouteFault "Mic" "{mic0}" true "io fault" rfl rfl rfl rfl).1,
   (partial_write_behavior wRouteFault "Mic" "{mic0}" true "io fault" rfl rfl rfl rfl).2.1⟩

/-- Counterexample to claim C7: with `Commit` failing, the apply still
succeeds with the computed final state, but nothing reports the failure —
the printed output is exactly the two state lines, identical to the run
whose commit succeeds, so the commit failure is silently swallowed rather
than "reported as a non-fatal warning" (the code's handler is
`except Exception: pass`). -/
theorem commit_warning_counterexample :
    (apply_listen_settings wCommitFault "Mic" (some true) none).committed = false ∧
    (apply_listen_settings wCommitFault "Mic" (some true) none).result =
      .ok { enabled := true, route_target := none } ∧
    (apply_listen_settings wCommitFault "Mic" (some true) none).output =
      (apply_listen_settings wDemo "Mic" (some true) none).output ∧
    (apply_listen_settings wCommitFault "Mic" (some true) none).output =
      ["[micmon] Listen to this device: ON",
       "[micmon] Playback through this device: Default playback device"] := by
  decide

/-- Claim C7 as amended: a commit failure never changes the operation's
outcome — result (still success with the computed final state on the
success path), final store, performed writes and printed output are all
identical to the run whose commit succeeds; the failure is silently
swallowed, with no warning reported. -/
theorem commit_failure_swallowed (w : World) (mic : String)
    (enabled : Option Bool) (pb : Option String) (verbose : Bool) :
    ((apply_listen_settings { w with faults := { w.faults with commitFails := true } }
        mic enabled pb verbose).result =
      (apply_listen_settings w mic enabled pb verbose).result) ∧
    ((apply_listen_settings { w with faults := { w.faults with commitFails := true } }
        mic enabled pb verbose).store =
      (apply_listen_settings w mic enabled pb verbose).store) ∧
    ((apply_listen_settings { w with faults := { w.faults with commitFails := true } }
        mic enabled pb verbose).writes =
      (apply_listen_settings w mic enabled pb verbose).writes) ∧
    ((apply_listen_settings { w with faults := { w.faults with commitFails := true } }
        mic enabled pb verbose).output =
      (apply_listen_settings w mic enabled pb verbose).output) := by
  have hopen : open_property_store_for_device
      { w with faults := { w.faults with commitFails := true } } mic =
      open_property_store_for_device w mic := by
    simp [open_property_store_for_device]
  simp only [apply_listen_settings, hopen]
  cases h : open_property_store_for_device w mic with
  | error e => simp [h]
  | ok store0 =>
    simp only [set_listen_enabled, set_listen_playback_device]
    cases hcb : w.faults.checkboxWriteFault with
    | some c => simp [h, hcb]
    | none =>
      cases pb with
      | none =>
        cases hrt : w.faults.routeWriteFault with
        | some c => simp [h, hcb, hrt]
        | none => simp [h, hcb, hrt]
      | some nm =>
        cases hfd : find_device_guid_by_name w.os nm with
        | error e => simp [h, hcb, hfd]
        | ok guid =>
          cases hrt : w.faults.routeWriteFault with
          | some c => simp [h, hcb, hfd, hrt]
          | none => simp [h, hcb, hfd, hrt]

end MicMon
